import Mathlib

/-!
Verification development for the device state synchronization and approval
workflow of the IoT data collector dashboard.

The embedded code is the frontend client:
  * src/frontend/src/types.ts        — DTO shapes (DeviceDTO, SensorDTO)
  * src/frontend/src/api.ts          — the fetch wrapper and the three
    operations getDevices, getDevice, approveDevice
  * src/frontend/src/pages/Devices.tsx      — the polling device list view
  * src/frontend/src/pages/DeviceDetail.tsx — the detail view with the
    approval action

The stateful React components are embedded as explicit state machines: the
component state is a structure, and every occurrence that can change it
(effect runs, interval ticks, promise resolutions, user clicks, route
parameter changes, unmount) is an event consumed by a step function.
Promise resolutions are events carrying an Except value because every
network call either resolves with a parsed value or rejects.
-/

namespace IotDashboard

/-- src/frontend/src/types.ts: SensorDTO is { id: number; name: string; type: string }.
The field type is written ty because type is a keyword in Lean. -/
structure SensorDTO where
  id : Int
  name : String
  ty : String
deriving DecidableEq, Repr

/-- src/frontend/src/types.ts: DeviceDTO is
{ id: string; approved: boolean; sensors: SensorDTO[]; sensor_count: number }. -/
structure DeviceDTO where
  id : String
  approved : Bool
  sensors : List SensorDTO
  sensor_count : Int
deriving DecidableEq, Repr

/-- src/frontend/src/api.ts: the approve endpoint resolves with { success: boolean }. -/
structure ApprovalResult where
  success : Bool
deriving DecidableEq, Repr

/-- The Response object a resolved fetch delivers, restricted to what api uses:
res.ok (true exactly for a 2xx status), res.text() (the raw body text, used as
the error detail) and res.json() (the outcome of parsing the body as a T:
some v when the body parses, none when res.json() rejects, as it does for
example on an empty body). -/
structure HttpResponse (T : Type) where
  ok : Bool
  bodyText : String
  json : Option T
deriving DecidableEq, Repr

/-- Outcome of the fetch call itself: the promise either rejects (network
failure) or resolves with a Response. -/
inductive FetchOutcome (T : Type) where
  | failure
  | response (res : HttpResponse T)
deriving DecidableEq, Repr

/-- The single error channel of the client: a rejected fetch, a thrown
Error carrying the body text of a non-2xx response, or a rejected
res.json() on a 2xx response. -/
inductive ApiError where
  | network
  | http (detail : String)
  | badJson
deriving DecidableEq, Repr

/-- src/frontend/src/api.ts, function api:

  const res = await fetch(path, options);
  if (!res.ok) throw new Error(await res.text());
  return res.json() as Promise of T;

Given the outcome of the fetch for the requested path, the call resolves
with the parsed body or rejects with the corresponding error. -/
def api {T : Type} (r : FetchOutcome T) : Except ApiError T :=
  match r with
  | .failure => .error .network
  | .response res =>
      if res.ok then
        match res.json with
        | some v => .ok v
        | none => .error .badJson
      else .error (.http res.bodyText)

/-- src/frontend/src/api.ts: getDevices issues GET /frontend/devices and
returns api applied to the outcome of that fetch. -/
def getDevicesCall (r : FetchOutcome (List DeviceDTO)) : Except ApiError (List DeviceDTO) :=
  api r

/-- src/frontend/src/api.ts: getDevice(id) issues GET /frontend/devices/{id}. -/
def getDeviceCall (_id : String) (r : FetchOutcome DeviceDTO) : Except ApiError DeviceDTO :=
  api r

/-- src/frontend/src/api.ts: approveDevice(id) issues
POST /frontend/devices/{id}/approve. -/
def approveDeviceCall (_id : String) (r : FetchOutcome ApprovalResult) :
    Except ApiError ApprovalResult :=
  api r

/-- Whether a call failed (the promise rejected). -/
def isFailure {T : Type} : Except ApiError T → Bool
  | .error _ => true
  | .ok _ => false

/-! ## Device list view (src/frontend/src/pages/Devices.tsx)

  const [devices, setDevices] = useState of DeviceDTO[] ([]);
  const refreshDevices = useCallback(() => {
    getDevices().then(setDevices).catch(console.error);
  }, []);
  useEffect(() => {
    refreshDevices();
    const interval = setInterval(refreshDevices, 10_000);
    return () => clearInterval(interval);
  }, [refreshDevices]);

State: the held collection plus bookkeeping of issued and still pending
getDevices calls. active records whether the component is mounted with its
effect live; the cleanup clears the interval on unmount. -/

structure ListState where
  active : Bool
  devices : List DeviceDTO
  issued : Nat
  pendingPolls : Nat
deriving DecidableEq, Repr

/-- Initial state on mount: useState([]) and the effect not yet run. -/
def listInit : ListState := ⟨true, [], 0, 0⟩

/-- Events of the list view. tick is one invocation opportunity of
refreshDevices (the immediate call in the effect body or one firing of the
10 s interval); pollResolve is the settling of one outstanding getDevices
promise; unmount runs the effect cleanup (clearInterval). -/
inductive ListEvent where
  | tick
  | pollResolve (r : Except ApiError (List DeviceDTO))
  | unmount
deriving Repr

/-- One step of the list view.

  * tick: after clearInterval the interval callback never runs again, so a
    tick on an inactive view does nothing; on an active view refreshDevices
    issues getDevices unconditionally — nothing in the source waits for the
    previous poll to settle.
  * pollResolve: .then(setDevices) replaces the whole held collection with
    the resolved list; .catch(console.error) only logs, leaving the held
    collection untouched. React discards state updates of an unmounted
    component, so a resolution arriving after unmount changes nothing.
    A resolve with no poll outstanding cannot occur and is a no-op.
  * unmount: the cleanup clears the interval; the in-flight polls are not
    aborted. -/
def listStep (s : ListState) (e : ListEvent) : ListState :=
  match e with
  | .tick =>
      if s.active then
        { s with issued := s.issued + 1, pendingPolls := s.pendingPolls + 1 }
      else s
  | .pollResolve r =>
      if s.pendingPolls = 0 then s
      else
        match r with
        | .ok l =>
            if s.active then
              { s with devices := l, pendingPolls := s.pendingPolls - 1 }
            else
              { s with pendingPolls := s.pendingPolls - 1 }
        | .error _ => { s with pendingPolls := s.pendingPolls - 1 }
  | .unmount => { s with active := false }

/-- Run the list view over a sequence of events. -/
def runList (s : ListState) (es : List ListEvent) : ListState :=
  es.foldl listStep s

/-! ## Device detail view (src/frontend/src/pages/DeviceDetail.tsx)

  const { id } = useParams();
  const [device, setDevice] = useState of DeviceDTO or null (null);
  const refresh = useCallback(() => {
    if (id) {
      getDevice(id).then(setDevice).catch(console.error);
    }
  }, [id]);
  useEffect(() => {
    refresh();
  }, [refresh]);
  if (!device) return <div>Loading...</div>;
  ... {!device.approved && <button onClick={() => approveDevice(device.id).then(refresh)}>...

The route parameter id may be absent, so it is an Option String; the
JavaScript truthiness test if (id) is false for undefined and for the empty
string. The component stays mounted while the id parameter changes
(navigation between devices re-renders the same route element), so a
getDevice resolution always reaches setDevice — there is no guard comparing
the resolved record against the current id.

The useCallback closure refresh captures the id of the render that created
it. The approve click handler captures that closure, so the re-fetch that
.then(refresh) runs after a successful approval uses the route id as it was
at click time; each pending approval therefore records the captured id. -/

structure DetailState where
  routeId : Option String
  device : Option DeviceDTO
  nextReq : Nat
  getPending : List (Nat × String)
  nextApp : Nat
  appPending : List (Nat × String × Option String)
  issuedIds : List String
deriving DecidableEq, Repr

/-- Initial state on mount at a given route id: device is null, no call
issued yet (the effect has not run). issuedIds is instrumentation only: it
logs the argument of every getDevice invocation, in order. -/
def detailInit (rid : Option String) : DetailState :=
  ⟨rid, none, 0, [], 0, [], []⟩

/-- JavaScript truthiness of the optional id, as tested by if (id):
undefined and the empty string are falsy. -/
def idTruthy : Option String → Bool
  | none => false
  | some i => i != ""

/-- The body of refresh as created for route id rid:
if (id) { getDevice(id).then(setDevice).catch(console.error) } — when the
captured id is truthy, one getDevice(id) call is issued and becomes pending;
otherwise nothing happens. -/
def refreshWith (rid : Option String) (s : DetailState) : DetailState :=
  match rid with
  | none => s
  | some i =>
      if i = "" then s
      else
        { s with getPending := s.getPending ++ [(s.nextReq, i)],
                 nextReq := s.nextReq + 1,
                 issuedIds := s.issuedIds ++ [i] }

/-- Events of the detail view.
  * effectRun: the useEffect body runs (on mount), invoking refresh with the
    current route id.
  * navigate: the id route parameter changes; the component re-renders,
    refresh is recreated for the new id, and the effect re-runs (its
    dependency changed). An unchanged id does not re-trigger the effect.
  * clickApprove: the user activates the approve button; possible only
    while the button is rendered.
  * getResolve k: the pending getDevice call number k settles.
  * approveResolve k: the pending approveDevice call number k settles. -/
inductive DetailEvent where
  | effectRun
  | navigate (newId : Option String)
  | clickApprove
  | getResolve (k : Nat) (r : Except ApiError DeviceDTO)
  | approveResolve (k : Nat) (r : Except ApiError ApprovalResult)
deriving Repr

/-- One step of the detail view.

  * effectRun: refresh() with the current route id.
  * navigate newId: the route id becomes newId and, if it actually changed,
    the recreated refresh runs via the effect.
  * clickApprove: the button exists only when device is held and not
    approved; clicking calls approveDevice(device.id) and registers
    .then(refresh) with the click-time refresh closure, recorded as the
    captured route id. Nothing is disabled: the state the render reads is
    unchanged, so further clicks remain possible while the call is in
    flight.
  * getResolve k (ok d): .then(setDevice) stores the resolved record —
    unconditionally, whatever the current route id is.
  * getResolve k (error): .catch(console.error) only logs.
  * approveResolve k (ok r): .then(refresh) runs the captured refresh,
    issuing a getDevice for the captured id (if truthy). The resolved
    { success } value itself is never read.
  * approveResolve k (error): the promise chain has no rejection handler
    after approveDevice, so nothing runs — no re-fetch, no state change.
  * A resolve event whose index is not pending cannot occur and is a no-op. -/
def detailStep (s : DetailState) (e : DetailEvent) : DetailState :=
  match e with
  | .effectRun => refreshWith s.routeId s
  | .navigate newId =>
      if newId = s.routeId then s
      else refreshWith newId { s with routeId := newId }
  | .clickApprove =>
      match s.device with
      | none => s
      | some d =>
          if d.approved then s
          else
            { s with appPending := s.appPending ++ [(s.nextApp, d.id, s.routeId)],
                     nextApp := s.nextApp + 1 }
  | .getResolve k r =>
      if s.getPending.any (fun p => p.1 == k) then
        let s1 := { s with getPending := s.getPending.filter (fun p => p.1 != k) }
        match r with
        | .ok d => { s1 with device := some d }
        | .error _ => s1
      else s
  | .approveResolve k r =>
      match s.appPending.find? (fun p => p.1 == k) with
      | none => s
      | some ent =>
          let s1 := { s with appPending := s.appPending.filter (fun p => p.1 != k) }
          match r with
          | .ok _ => refreshWith ent.2.2 s1
          | .error _ => s1

/-- Run the detail view over a sequence of events. -/
def runDetail (s : DetailState) (es : List DetailEvent) : DetailState :=
  es.foldl detailStep s

/-- What the component renders: the Loading placeholder while device is
null, otherwise the device section, whose approve button is present exactly
when the held record is not approved. -/
inductive DetailView where
  | loading
  | ready (d : DeviceDTO) (approveButton : Bool)
deriving DecidableEq, Repr

/-- The render function of DeviceDetail:
if (!device) return Loading; ... {!device.approved && <button ...>}. -/
def renderDetail (s : DetailState) : DetailView :=
  match s.device with
  | none => .loading
  | some d => .ready d (!d.approved)

/-- Whether the rendered view offers the approval trigger. -/
def approveOffered : DetailView → Bool
  | .loading => false
  | .ready _ b => b

/-! ## Concrete sample data for witnesses and counterexamples -/

/-- The pending device of the scenario in the specification:
{id:"d1",approved:false,sensors:[{id:1,name:"temp",type:"thermal"}]}. -/
def dOne : DeviceDTO := ⟨"d1", false, [⟨1, "temp", "thermal"⟩], 1⟩

/-- A device at route id A, used for stale-response scenarios. -/
def devA : DeviceDTO := ⟨"A", false, [], 0⟩

/-- A detail state holding dOne with one approveDevice call in flight
(index 0, captured route id d1) and one getDevice already issued. -/
def approvingState : DetailState :=
  ⟨some "d1", some dOne, 1, [], 1, [(0, "d1", some "d1")], ["d1"]⟩

/-- A detail state with the initial getDevice for d1 still in flight. -/
def fetchingState : DetailState :=
  ⟨some "d1", none, 1, [(0, "d1")], 0, [], ["d1"]⟩

/-! ## Theorems about the list view -/

/-- Helper: once the list view is inactive, every event leaves it inactive
and changes neither the number of issued polls nor the held collection.
After clearInterval the tick callback no longer runs, and React discards a
setDevices of an unmounted component. -/
theorem listStep_inactive (s : ListState) (e : ListEvent) (h : s.active = false) :
    (listStep s e).active = false ∧ (listStep s e).issued = s.issued ∧
      (listStep s e).devices = s.devices := by
  cases e with
  | tick => simp [listStep, h]
  | pollResolve r =>
      cases r <;> simp only [listStep, h] <;> split <;> simp [h]
  | unmount => simp [listStep, h]

/-- C3: on an active list view, a successful getDevices resolution replaces
the held collection with exactly the resolved list (same elements, same
order, no merging), and a failed resolution leaves the held collection
exactly as it was. -/
theorem list_refresh_wholesale_replace (s : ListState) (l : List DeviceDTO)
    (err : ApiError) (hact : s.active = true) (hp : 0 < s.pendingPolls) :
    (listStep s (.pollResolve (.ok l))).devices = l ∧
      (listStep s (.pollResolve (.error err))).devices = s.devices := by
  have hne : s.pendingPolls ≠ 0 := Nat.pos_iff_ne_zero.mp hp
  constructor <;> simp [listStep, hact, hne]

/-- Witness for C3 at a concrete state with one poll in flight. -/
theorem list_refresh_wholesale_replace_witness :
    (listStep ⟨true, [], 1, 1⟩ (.pollResolve (.ok [dOne]))).devices = [dOne] ∧
      (listStep ⟨true, [], 1, 1⟩ (.pollResolve (.error .network))).devices = [] := by
  have h := list_refresh_wholesale_replace ⟨true, [], 1, 1⟩ [dOne] .network rfl
    (by decide)
  exact ⟨h.1, h.2⟩

/-- C5 fails on the code: setInterval fires on its fixed schedule whether or
not the previous getDevices call has settled, so two ticks with no
resolution in between leave two polls in flight at the same time. -/
theorem overlapping_polls_counterexample :
    (runList listInit [.tick, .tick]).pendingPolls = 2 := by
  decide

/-- C5 amended: ticks are not serialized — on an active view every tick
issues a new getDevices call unconditionally, regardless of how many polls
are still in flight, so overlapping polls occur whenever a response is
slower than the interval. -/
theorem tick_unconditional_amended (s : ListState) (hact : s.active = true) :
    (listStep s .tick).issued = s.issued + 1 ∧
      (listStep s .tick).pendingPolls = s.pendingPolls + 1 := by
  simp [listStep, hact]

/-- Witness for the amended C5 at a state that already has three polls in
flight: the tick still issues a fourth. -/
theorem tick_unconditional_amended_witness :
    (listStep ⟨true, [], 5, 3⟩ .tick).issued = 6 ∧
      (listStep ⟨true, [], 5, 3⟩ .tick).pendingPolls = 4 := by
  exact tick_unconditional_amended ⟨true, [], 5, 3⟩ rfl

/-- C6: after the list view is deactivated (the effect cleanup runs
clearInterval), no further getDevices calls are issued — the issued counter
never grows again — and no resolution, including those of polls that were
in flight at deactivation, ever changes the held collection. -/
theorem list_deactivation_freezes (s : ListState) (es : List ListEvent) :
    (runList (listStep s .unmount) es).issued = s.issued ∧
      (runList (listStep s .unmount) es).devices = s.devices := by
  have key : ∀ (es : List ListEvent) (t : ListState), t.active = false →
      (runList t es).active = false ∧ (runList t es).issued = t.issued ∧
        (runList t es).devices = t.devices := by
    intro es
    induction es with
    | nil => intro t ht; exact ⟨ht, rfl, rfl⟩
    | cons e tl ih =>
        intro t ht
        have h1 := listStep_inactive t e ht
        have h2 := ih (listStep t e) h1.1
        exact ⟨h2.1, h2.2.1.trans h1.2.1, h2.2.2.trans h1.2.2⟩
  exact ⟨(key es (listStep s .unmount) rfl).2.1,
    (key es (listStep s .unmount) rfl).2.2⟩

/-! ## Theorems about the API client -/

/-- C7 fails as stated: an operation can fail although the network call
succeeded and the response is 2xx. The empty body is not valid JSON, so
res.json() rejects on a 200 response and getDevices fails. -/
theorem api_2xx_bad_body_counterexample :
    (HttpResponse.mk true "" none : HttpResponse (List DeviceDTO)).ok = true ∧
      getDevicesCall (.response ⟨true, "", none⟩) = .error .badJson :=
  ⟨rfl, rfl⟩

/-- C7 amended: each of the three operations is the api wrapper at its
response type, and api resolves exactly when the fetch resolved with a 2xx
response whose body parses as JSON; it fails on network failure, on any
non-2xx response — carrying the raw body text as the error detail — and
also on a 2xx response whose body does not parse. -/
theorem api_failure_characterization_amended :
    (∀ (r : FetchOutcome (List DeviceDTO)), getDevicesCall r = api r) ∧
    (∀ (i : String) (r : FetchOutcome DeviceDTO), getDeviceCall i r = api r) ∧
    (∀ (i : String) (r : FetchOutcome ApprovalResult),
      approveDeviceCall i r = api r) ∧
    (∀ (T : Type), api (FetchOutcome.failure : FetchOutcome T) = .error .network) ∧
    (∀ (T : Type) (res : HttpResponse T),
      (res.ok = false → api (.response res) = .error (.http res.bodyText)) ∧
      (res.ok = true → res.json = none → api (.response res) = .error .badJson) ∧
      (∀ v, res.ok = true → res.json = some v → api (.response res) = .ok v)) := by
  refine ⟨fun _ => rfl, fun _ _ => rfl, fun _ _ => rfl, fun _ => rfl, ?_⟩
  intro T res
  refine ⟨fun hok => ?_, fun hok hj => ?_, fun v hok hj => ?_⟩
  · simp [api, hok]
  · simp [api, hok, hj]
  · simp [api, hok, hj]

/-- Witness for the amended C7: one concrete outcome of each kind (non-2xx
carrying its body text, 2xx with unparsable body, 2xx with parsed body). -/
theorem api_failure_characterization_amended_witness :
    getDevicesCall (.response ⟨true, "", none⟩) = api (.response ⟨true, "", none⟩) ∧
      api (.response (⟨false, "device not found", none⟩ : HttpResponse DeviceDTO)) =
        .error (.http "device not found") ∧
      api (.response (⟨true, "", none⟩ : HttpResponse (List DeviceDTO))) =
        .error .badJson ∧
      api (.response (⟨true, "body", some ⟨true⟩⟩ : HttpResponse ApprovalResult)) =
        .ok ⟨true⟩ := by
  refine ⟨api_failure_characterization_amended.1 _, ?_, ?_, ?_⟩
  · exact (api_failure_characterization_amended.2.2.2.2 DeviceDTO
      ⟨false, "device not found", none⟩).1 rfl
  · exact (api_failure_characterization_amended.2.2.2.2 (List DeviceDTO)
      ⟨true, "", none⟩).2.1 rfl rfl
  · exact (api_failure_characterization_amended.2.2.2.2 ApprovalResult
      ⟨true, "body", some ⟨true⟩⟩).2.2 ⟨true⟩ rfl rfl

/-! ## Helper lemmas about the detail view -/

/-- refresh never touches the held device record. -/
theorem refreshWith_device (rid : Option String) (s : DetailState) :
    (refreshWith rid s).device = s.device := by
  cases rid with
  | none => rfl
  | some j =>
      simp only [refreshWith]
      split <;> rfl

/-- refresh only issues getDevice with a non-empty id: the if (id) guard
filters out the falsy ids before the call. -/
theorem refreshWith_ids (rid : Option String) (s : DetailState)
    (h : ∀ i ∈ s.issuedIds, i ≠ "") : ∀ i ∈ (refreshWith rid s).issuedIds, i ≠ "" := by
  cases rid with
  | none => exact h
  | some j =>
      simp only [refreshWith]
      split
      · exact h
      · rename_i hj
        intro i hi
        rcases List.mem_append.mp hi with h1 | h1
        · exact h i h1
        · have := List.mem_singleton.mp h1
          subst this
          exact hj

/-- Every step preserves the invariant that all getDevice invocations so
far used a non-empty id. -/
theorem detailStep_ids (s : DetailState) (e : DetailEvent)
    (h : ∀ i ∈ s.issuedIds, i ≠ "") : ∀ i ∈ (detailStep s e).issuedIds, i ≠ "" := by
  cases e with
  | effectRun => exact refreshWith_ids _ _ h
  | navigate newId =>
      simp only [detailStep]
      split
      · exact h
      · exact refreshWith_ids _ _ h
  | clickApprove =>
      simp only [detailStep]
      split
      · exact h
      · split
        · exact h
        · exact h
  | getResolve k r =>
      cases r <;> simp only [detailStep] <;> split <;> exact h
  | approveResolve k r =>
      simp only [detailStep]
      cases hfind : s.appPending.find? (fun p => p.1 == k) with
      | none => exact h
      | some ent =>
          cases r with
          | ok v => exact refreshWith_ids _ _ h
          | error err => exact h

/-! ## Theorems about the detail view -/

/-- C1 fails as stated: approveDevice(device.id).then(refresh) has no
rejection handler, so when the approve call fails no re-fetch happens. In
this run the approve call for d1 completes with a network error
(appPending is empty again) yet the only getDevice ever issued is the
initial one. -/
theorem approve_failure_no_refetch_counterexample :
    (runDetail (detailInit (some "d1"))
      [.effectRun, .getResolve 0 (.ok dOne), .clickApprove,
        .approveResolve 0 (.error .network)]).appPending = [] ∧
      (runDetail (detailInit (some "d1"))
        [.effectRun, .getResolve 0 (.ok dOne), .clickApprove,
          .approveResolve 0 (.error .network)]).issuedIds = ["d1"] := by
  constructor <;> rfl

/-- C1 amended: only a successful approveDevice triggers the re-fetch —
.then(refresh) then issues getDevice with the route id captured at click
time; a failed approveDevice triggers nothing (no re-fetch, no state
change). The displayed record is never a locally assumed value: the held
device changes only when a getDevice response resolves, and then to exactly
the resolved record. -/
theorem approve_completion_refetch_amended :
    (∀ (s : DetailState) (k : Nat) (did c : String) (r : ApprovalResult),
      s.appPending.find? (fun p => p.1 == k) = some (k, did, some c) → c ≠ "" →
      (detailStep s (.approveResolve k (.ok r))).issuedIds = s.issuedIds ++ [c] ∧
        (detailStep s (.approveResolve k (.ok r))).nextReq = s.nextReq + 1) ∧
    (∀ (s : DetailState) (k : Nat) (err : ApiError),
      (detailStep s (.approveResolve k (.error err))).device = s.device ∧
        (detailStep s (.approveResolve k (.error err))).issuedIds = s.issuedIds ∧
        (detailStep s (.approveResolve k (.error err))).nextReq = s.nextReq) ∧
    (∀ (s : DetailState) (e : DetailEvent), (detailStep s e).device ≠ s.device →
      ∃ k d, e = .getResolve k (.ok d) ∧ (detailStep s e).device = some d) := by
  refine ⟨?_, ?_, ?_⟩
  · intro s k did c r hfind hc
    simp only [detailStep, hfind]
    constructor <;> simp [refreshWith, hc]
  · intro s k err
    cases hfind : s.appPending.find? (fun p => p.1 == k) with
    | none => simp [detailStep, hfind]
    | some ent => simp [detailStep, hfind]
  · intro s e h
    cases e with
    | effectRun => exact absurd (refreshWith_device _ _) h
    | navigate newId =>
        exfalso
        apply h
        simp only [detailStep]
        split
        · rfl
        · exact refreshWith_device _ _
    | clickApprove =>
        exfalso
        apply h
        simp only [detailStep]
        split
        · rfl
        · split <;> rfl
    | getResolve k r =>
        cases r with
        | ok d =>
            cases hk : s.getPending.any (fun p => p.1 == k) with
            | true => exact ⟨k, d, rfl, by simp [detailStep, hk]⟩
            | false =>
                exfalso
                apply h
                simp [detailStep, hk]
        | error err =>
            exfalso
            apply h
            simp only [detailStep]
            split <;> rfl
    | approveResolve k r =>
        exfalso
        apply h
        simp only [detailStep]
        cases hfind : s.appPending.find? (fun p => p.1 == k) with
        | none => rfl
        | some ent =>
            cases r with
            | ok v => exact refreshWith_device _ _
            | error err => rfl

/-- Witness for the amended C1: from a state with one pending approval for
d1, a successful resolution issues the re-fetch for the captured id, a
failed resolution issues nothing, and a getDevice resolution is the event
that changes the held record. -/
theorem approve_completion_refetch_amended_witness :
    (detailStep approvingState (.approveResolve 0 (.ok ⟨true⟩))).issuedIds =
        ["d1"] ++ ["d1"] ∧
      (detailStep approvingState (.approveResolve 0 (.error .network))).issuedIds =
        ["d1"] ∧
      ∃ k d, DetailEvent.getResolve 0 (Except.ok dOne) = .getResolve k (.ok d) ∧
        (detailStep fetchingState (.getResolve 0 (.ok dOne))).device = some d := by
  refine ⟨?_, ?_, ?_⟩
  · exact (approve_completion_refetch_amended.1 approvingState 0 "d1" "d1" ⟨true⟩
      rfl (by decide)).1
  · exact (approve_completion_refetch_amended.2.1 approvingState 0 .network).2.1
  · exact approve_completion_refetch_amended.2.2 fetchingState
      (.getResolve 0 (.ok dOne)) (by decide)

/-- C2 fails as stated: a getDevice fetch for id A is in flight, navigation
changes the requested id to B, and when the old response arrives,
.then(setDevice) still stores it — the view displays the record with id A
while the requested id is B. Nothing in the source compares the resolved
record against the current id. -/
theorem stale_get_response_applied_counterexample :
    (runDetail (detailInit (some "A"))
      [.effectRun, .navigate (some "B"), .getResolve 0 (.ok devA)]).routeId =
        some "B" ∧
      (runDetail (detailInit (some "A"))
        [.effectRun, .navigate (some "B"), .getResolve 0 (.ok devA)]).device =
        some devA ∧
      devA.id = "A" ∧
      renderDetail (runDetail (detailInit (some "A"))
        [.effectRun, .navigate (some "B"), .getResolve 0 (.ok devA)]) =
        .ready devA true := by
  refine ⟨rfl, rfl, rfl, rfl⟩

/-- C2 amended: the resolution of any in-flight getDevice call is applied
unconditionally as the held record, whatever the currently requested id —
the displayed record is that of whichever response arrived last. -/
theorem get_response_applied_amended (s : DetailState) (k : Nat) (d : DeviceDTO)
    (h : s.getPending.any (fun p => p.1 == k) = true) :
    (detailStep s (.getResolve k (.ok d))).device = some d := by
  simp [detailStep, h]

/-- Witness for the amended C2: the pending fetch for A resolves while the
requested id is B, and its record is applied anyway. -/
theorem get_response_applied_amended_witness :
    (detailStep ⟨some "B", none, 2, [(0, "A"), (1, "B")], 0, [], ["A", "B"]⟩
      (.getResolve 0 (.ok devA))).device = some devA :=
  get_response_applied_amended _ 0 devA (by decide)

/-- C4 fails as stated: the approve button has no disabled attribute and
the component has no Approving state, so a second click while the first
approveDevice call is in flight issues a second call: after two clicks, two
approvals are pending and the trigger is still offered. -/
theorem duplicate_approve_counterexample :
    (runDetail (detailInit (some "d1"))
      [.effectRun, .getResolve 0 (.ok dOne), .clickApprove, .clickApprove]).appPending =
        [(0, "d1", some "d1"), (1, "d1", some "d1")] ∧
      approveOffered (renderDetail (runDetail (detailInit (some "d1"))
        [.effectRun, .getResolve 0 (.ok dOne), .clickApprove, .clickApprove])) =
        true := by
  constructor <;> rfl

/-- C4 amended: while an approveDevice call is in flight nothing disables
the trigger — whenever the held record is unapproved the button is offered,
and every click appends one more approveDevice call, regardless of the
approvals already pending. -/
theorem approve_trigger_never_disabled_amended (s : DetailState) (d : DeviceDTO)
    (h : s.device = some d) (ha : d.approved = false) :
    approveOffered (renderDetail s) = true ∧
      (detailStep s .clickApprove).appPending =
        s.appPending ++ [(s.nextApp, d.id, s.routeId)] := by
  constructor
  · simp [renderDetail, h, approveOffered, ha]
  · simp [detailStep, h, ha]

/-- Witness for the amended C4 at a state that already has one approval in
flight: the trigger is still offered and a further click issues a second
approveDevice call. -/
theorem approve_trigger_never_disabled_amended_witness :
    approveOffered (renderDetail approvingState) = true ∧
      (detailStep approvingState .clickApprove).appPending =
        approvingState.appPending ++ [(1, "d1", some "d1")] :=
  approve_trigger_never_disabled_amended approvingState dOne rfl rfl

/-- C8: whenever the detail view holds a device record, the approval
trigger is offered exactly when the held record is not approved:
{!device.approved && <button ...>}. -/
theorem approve_trigger_iff_unapproved (s : DetailState) (d : DeviceDTO)
    (h : s.device = some d) :
    approveOffered (renderDetail s) = true ↔ d.approved = false := by
  simp [renderDetail, h, approveOffered]

/-- Witness for C8 at a state holding the unapproved device d1. -/
theorem approve_trigger_iff_unapproved_witness :
    approveOffered (renderDetail approvingState) = true ↔ dOne.approved = false :=
  approve_trigger_iff_unapproved approvingState dOne rfl

/-- C9 fails as stated: when the initial getDevice fails, the catch only
logs, device stays null, and the component renders the same Loading
placeholder as before the failure — the render type has no failure state at
all, so nothing visibly distinct from Loading exists. No retry is issued
(the id list of getDevice invocations still holds only the initial one). -/
theorem load_failure_renders_loading_counterexample :
    renderDetail (runDetail (detailInit (some "d1"))
      [.effectRun, .getResolve 0 (.error (.http "server error"))]) = .loading ∧
      renderDetail (detailInit (some "d1")) = .loading ∧
      (runDetail (detailInit (some "d1"))
        [.effectRun, .getResolve 0 (.error (.http "server error"))]).issuedIds =
        ["d1"] := by
  refine ⟨rfl, rfl, rfl⟩

/-- C9 amended: a failed getDevice resolution is only logged: the held
record, the log of getDevice invocations (hence: no automatic retry) and
the rendered view are all left exactly as they were, so after a failed
initial fetch the view keeps rendering the Loading placeholder
indefinitely. -/
theorem fetch_error_only_logged_amended (s : DetailState) (k : Nat) (err : ApiError) :
    (detailStep s (.getResolve k (.error err))).device = s.device ∧
      (detailStep s (.getResolve k (.error err))).issuedIds = s.issuedIds ∧
      renderDetail (detailStep s (.getResolve k (.error err))) = renderDetail s := by
  have hd : (detailStep s (.getResolve k (.error err))).device = s.device := by
    simp only [detailStep]
    split <;> rfl
  refine ⟨hd, ?_, ?_⟩
  · simp only [detailStep]
    split <;> rfl
  · unfold renderDetail
    rw [hd]

/-- C10 fails as stated: getDevice is not always invoked with the id of the
current route. The approve click handler captures the refresh closure of
its render; after navigating from A to B while the approval is in flight,
the successful resolution runs the captured refresh and issues
getDevice("A") although the current route id is B. -/
theorem refetch_uses_captured_id_counterexample :
    (runDetail (detailInit (some "A"))
      [.effectRun, .getResolve 0 (.ok devA), .clickApprove, .navigate (some "B"),
        .approveResolve 0 (.ok ⟨true⟩)]).routeId = some "B" ∧
      (runDetail (detailInit (some "A"))
        [.effectRun, .getResolve 0 (.ok devA), .clickApprove, .navigate (some "B"),
          .approveResolve 0 (.ok ⟨true⟩)]).issuedIds = ["A", "B", "A"] := by
  constructor <;> rfl

/-- C10 amended: entering the view with a falsy id (absent or empty) issues
no getDevice call at all and the view renders the Loading placeholder; and
every getDevice invocation, in any run, uses a non-empty id — the route id
captured when its refresh closure was created, which after an approval
resolving post-navigation may be a previous route id rather than the
current one. -/
theorem getdevice_id_guard_amended :
    (∀ (rid : Option String), idTruthy rid = false →
      detailStep (detailInit rid) .effectRun = detailInit rid ∧
        renderDetail (detailInit rid) = .loading) ∧
    (∀ (rid : Option String) (es : List DetailEvent),
      ∀ i ∈ (runDetail (detailInit rid) es).issuedIds, i ≠ "") := by
  constructor
  · intro rid hf
    refine ⟨?_, rfl⟩
    cases rid with
    | none => rfl
    | some j =>
        have hj : j = "" := by simpa [idTruthy] using hf
        subst hj
        rfl
  · intro rid es
    have key : ∀ (es : List DetailEvent) (t : DetailState),
        (∀ i ∈ t.issuedIds, i ≠ "") → ∀ i ∈ (runDetail t es).issuedIds, i ≠ "" := by
      intro es
      induction es with
      | nil => intro t ht; exact ht
      | cons e tl ih => intro t ht; exact ih (detailStep t e) (detailStep_ids t e ht)
    refine key es (detailInit rid) ?_
    intro i hi
    simp [detailInit] at hi

/-- Witness for the amended C10: a mount with an absent id issues nothing,
and the id of an actually issued call is non-empty. -/
theorem getdevice_id_guard_amended_witness :
    detailStep (detailInit none) .effectRun = detailInit none ∧ "A" ≠ "" := by
  constructor
  · exact (getdevice_id_guard_amended.1 none rfl).1
  · exact getdevice_id_guard_amended.2 (some "A") [.effectRun] "A" (by decide)

end IotDashboard
